import Mathlib

/-!
Verification of the movie-ranking-site front-end (src/src/App.jsx,
src/src/components/MovieCard.jsx, src/src/components/Search.jsx) against its
natural-language specification.  The JavaScript is shallowly embedded: the
page-level state is an explicit record, the async fetch becomes a state
transformer parameterised by the HTTP outcome, and JS truthiness (`x ? a : b`,
`x || d`) is spelled out on `Option` values.  `vote_average` is modelled as a
rational number; `toFixed(1)` becomes round-half-up to one decimal.
-/

/-- A movie record as received from the remote API and consumed by
`MovieCard`.  Fields that JS may leave `undefined` are `Option`s. -/
structure Movie where
  id : Nat
  title : String
  vote_average : Option ℚ
  poster_path : Option String
  release_date : Option String
  original_language : Option String
deriving DecidableEq

/-- The parsed JSON body of a 2xx response: the optional `results` array and
the legacy `response`/`Error` inline-failure pair (App.jsx lines 128-135). -/
structure ResponseBody where
  response : Option String
  Error : Option String
  results : Option (List Movie)
deriving DecidableEq

/-- Outcome of one `fetch` call: either the transport throws (network
failure, or a body that fails to parse), or an HTTP response arrives with
`ok` mirroring JS `response.ok` (true exactly for 2xx) and a parsed body. -/
inductive FetchResult where
  | thrown : FetchResult
  | resp (ok : Bool) (body : ResponseBody) : FetchResult
deriving DecidableEq

/-- The state owned by the `App` component: the five `useState` hooks of
App.jsx (searchTerm, errorMessage, isLoading, movieList) together with the
derived debounced search term. -/
structure AppState where
  searchTerm : String
  debouncedSearchTerm : String
  errorMessage : String
  isLoading : Bool
  movieList : List Movie
deriving DecidableEq

/-- JS `v || d` for an optional string field: `undefined` and the empty
string are falsy, any other string is itself. -/
def jsOrDefault (v : Option String) (d : String) : String :=
  match v with
  | none => d
  | some x => if x = "" then d else x

/-- The fixed API base URL of App.jsx. -/
def API_BASE_URL : String := "https://api.themoviedb.org/3"

/-- One hexadecimal digit character (uppercase, as `encodeURIComponent`
produces). -/
def hexDigitChar (n : Nat) : Char :=
  if n < 10 then Char.ofNat (48 + n) else Char.ofNat (65 + n - 10)

/-- Percent-encoding of a single byte: `%XY` with uppercase hex. -/
def percentByte (b : Nat) : List Char :=
  ['%', hexDigitChar (b / 16), hexDigitChar (b % 16)]

/-- The UTF-8 byte sequence of one character. -/
def utf8Bytes (c : Char) : List Nat :=
  let n := c.toNat
  if n < 128 then [n]
  else if n < 2048 then [192 + n / 64, 128 + n % 64]
  else if n < 65536 then [224 + n / 4096, 128 + (n / 64) % 64, 128 + n % 64]
  else [240 + n / 262144, 128 + (n / 4096) % 64, 128 + (n / 64) % 64,
        128 + n % 64]

/-- The characters JS `encodeURIComponent` leaves unescaped. -/
def isUnescapedChar (c : Char) : Bool :=
  c.isAlphanum || c = '-' || c = '_' || c = '.' || c = '!' || c = '~' ||
    c = '*' || c = '\'' || c = '(' || c = ')'

/-- JS `encodeURIComponent`: unescaped characters pass through, every other
character is replaced by the percent-encoding of its UTF-8 bytes. -/
def encodeURIComponent (s : String) : String :=
  String.mk ((s.data.map fun c =>
    if isUnescapedChar c then [c] else (utf8Bytes c).flatMap percentByte)).flatten

/-- The endpoint built by `fetchMovies` (App.jsx lines 99-104): a nonempty
query is truthy and selects the keyword-search URL with the query
percent-encoded; an empty query selects the popularity-sorted discovery
URL. -/
def buildEndpoint (query : String) : String :=
  if query ≠ "" then
    API_BASE_URL ++ "/search/movie?query=" ++ encodeURIComponent query
  else
    API_BASE_URL ++ "/discover/movie?sort_by=popularity.desc"

/-- The opening steps of `fetchMovies` (App.jsx line 90 and 93):
`setIsLoading(true)` then `setErrorMessage('')`. -/
def fetchMoviesStart (s : AppState) : AppState :=
  { s with isLoading := true, errorMessage := "" }

/-- `fetchMovies` of App.jsx (lines 87-153) as a state transformer.
`respond` maps the requested endpoint to the outcome of `fetch`:
  - a thrown transport failure, or a non-2xx response (`!response.ok`
    throws), lands in the catch block, which sets the generic error
    message and nothing else;
  - a 2xx body with `response == 'False'` sets the message to
    `data.Error || 'Failed to fetch movies'`, clears the list, and returns
    early;
  - otherwise the list becomes `data.results || []`.
The finally block clears `isLoading` unconditionally. -/
def fetchMovies (query : String) (respond : String → FetchResult)
    (s : AppState) : AppState :=
  let s1 := fetchMoviesStart s
  let s2 :=
    match respond (buildEndpoint query) with
    | FetchResult.thrown =>
        { s1 with errorMessage := "Error fetching movies. Please Try Again." }
    | FetchResult.resp ok body =>
        if !ok then
          { s1 with errorMessage := "Error fetching movies. Please Try Again." }
        else if body.response = some "False" then
          { s1 with errorMessage := jsOrDefault body.Error "Failed to fetch movies",
                    movieList := [] }
        else
          { s1 with movieList := body.results.getD [] }
  { s2 with isLoading := false }

/-- JS `String.prototype.split` with a single-character separator, at the
character-list level: the maximal separator-free segments, in order.  The
result is never empty (splitting the empty string gives `[[]]`). -/
def splitChar (sep : Char) : List Char → List (List Char)
  | [] => [[]]
  | c :: cs =>
      if c = sep then [] :: splitChar sep cs
      else
        match splitChar sep cs with
        | [] => [[c]]
        | g :: gs => (c :: g) :: gs

/-- JS `s.split(sep)` on strings: `splitChar` over the string's characters,
each segment repacked as a string. -/
def jsSplit (sep : Char) (s : String) : List String :=
  (splitChar sep s.data).map String.mk

/-- JS `Number.prototype.toFixed(1)` on the rational model of
`vote_average`: per ECMA-262, a leading "-" for a negative value, then the
integer nearest `|q| * 10` (ties to the larger) printed with one digit after
the point.  That nearest integer is `floor(|q| * 10 + 1/2)`, computed here
on the reduced fraction as `(20 * |num| + den) / (2 * den)` in natural
division. -/
def toFixed1 (q : ℚ) : String :=
  let n : Nat := (20 * q.num.natAbs + q.den) / (2 * q.den)
  let digits := toString (n / 10) ++ "." ++ toString (n % 10)
  if q.num < 0 then "-" ++ digits else digits

/-- The rating text of `MovieCard` (MovieCard.jsx line 64):
`vote_average ? vote_average.toFixed(1) : 'N/A'`.  A present rating of 0 is
falsy in JS and renders "N/A" just like an absent one; a rational is zero
exactly when its numerator is. -/
def renderRating (vote_average : Option ℚ) : String :=
  match vote_average with
  | none => "N/A"
  | some v => if v.num = 0 then "N/A" else toFixed1 v

/-- The release-year text of `MovieCard` (MovieCard.jsx line 86):
`release_date ? release_date.split('-')[0] : 'N/A'`.  An absent or empty
(falsy) date renders "N/A"; otherwise the segment before the first '-'. -/
def renderYear (release_date : Option String) : String :=
  match release_date with
  | none => "N/A"
  | some s => if s = "" then "N/A" else (jsSplit '-' s).headD ""

/-- The poster image source of `MovieCard` (MovieCard.jsx lines 35-40):
a present, nonempty (truthy) poster path is appended to the TMDB image base,
otherwise the placeholder is used. -/
def renderPosterSrc (poster_path : Option String) : String :=
  match poster_path with
  | none => "/No-Poster.png"
  | some p =>
      if p = "" then "/No-Poster.png"
      else "https://image.tmdb.org/t/p/w500/" ++ p

/-- Modelled from the spec: the Input Debouncer (`useDebounce(searchTerm,
500)` at App.jsx line 79) is implemented by the external `use-debounce`
package, whose code is not in this repository.  Per the spec it is a
trailing-edge debounce with a 500 ms quiet period: each input change
restarts the timer, and a change emits its value one quiet period later
unless a further change lands strictly inside that period. -/
def debounceDelay : Nat := 500

/-- One update of the raw input value, at a point in time (ms). -/
structure Change where
  time : Nat
  value : String
deriving DecidableEq

/-- Modelled from the spec: the downstream emissions produced by a
time-sorted sequence of input changes.  A change emits at `time +
debounceDelay` with its value exactly when the next change (if any) arrives
no earlier than one full quiet period later; a change followed within the
quiet period is superseded and emits nothing. -/
def debounceEmissions : List Change → List Change
  | [] => []
  | [c] => [⟨c.time + debounceDelay, c.value⟩]
  | c :: d :: rest =>
      if c.time + debounceDelay ≤ d.time then
        ⟨c.time + debounceDelay, c.value⟩ :: debounceEmissions (d :: rest)
      else
        debounceEmissions (d :: rest)

/-- A concrete movie record used in witnesses and counterexamples. -/
def exMovie : Movie := ⟨27205, "Inception", none, none, none, none⟩

/-- A state holding one previously fetched movie, as left by a successful
fetch: the input of the C1 counterexample. -/
def exState : AppState := ⟨"inception", "inception", "", false, [exMovie]⟩

/-- The initial state of the `App` component: all strings empty, not
loading, no movies. -/
def initState : AppState := ⟨"", "", "", false, []⟩

/-- A responder whose `fetch` always throws (network failure). -/
def respondThrown : String → FetchResult := fun _ => FetchResult.thrown

/-- A 2xx body carrying the legacy inline failure with message "boom". -/
def boomBody : ResponseBody := ⟨some "False", some "boom", none⟩

/-- A responder returning the inline-failure body `boomBody`. -/
def respondBoom : String → FetchResult := fun _ => FetchResult.resp true boomBody

/-- A 2xx body carrying the inline failure flag with an empty `Error`. -/
def emptyErrBody : ResponseBody := ⟨some "False", some "", none⟩

/-- A responder returning the inline-failure body `emptyErrBody`. -/
def respondEmptyErr : String → FetchResult :=
  fun _ => FetchResult.resp true emptyErrBody

/-- A 2xx body with a one-movie `results` array and no failure flag. -/
def okBody : ResponseBody := ⟨none, none, some [exMovie]⟩

/-- A responder returning the successful body `okBody`. -/
def respondOk : String → FetchResult := fun _ => FetchResult.resp true okBody

/-- A responder that succeeds only at the "batman and robin" search
endpoint and throws everywhere else; it agrees with `respondOk` at that
endpoint alone. -/
def respondOkAtSearch : String → FetchResult := fun e =>
  if e = "https://api.themoviedb.org/3/search/movie?query=batman%20and%20robin"
  then FetchResult.resp true okBody else FetchResult.thrown

/-- The rational 7.543, the spec's example rating, as a literal reduced
fraction. -/
def exRating : ℚ := ⟨7543, 1000, by decide, by decide⟩

/-- A burst of three keystrokes 100 ms apart, the spec's debounce example. -/
def exBurst : List Change := [⟨0, "b"⟩, ⟨100, "ba"⟩, ⟨200, "bat"⟩]

/-- `splitChar` never returns the empty list, mirroring JS `split` always
yielding at least one segment. -/
lemma splitChar_ne_nil (sep : Char) (l : List Char) : splitChar sep l ≠ [] := by
  induction l with
  | nil => simp [splitChar]
  | cons c cs ih =>
    simp only [splitChar]
    split
    · simp
    · rcases h : splitChar sep cs with _ | ⟨g, gs⟩ <;> simp

/-- The first segment produced by `splitChar` on a list that opens with a
separator-free prefix followed by the separator is exactly that prefix. -/
lemma splitChar_head_append (sep : Char) (l r : List Char)
    (hl : ∀ c ∈ l, c ≠ sep) :
    (splitChar sep (l ++ sep :: r)).headD [] = l := by
  induction l with
  | nil => simp [splitChar]
  | cons c cs ih =>
    have hc : c ≠ sep := hl c (by simp)
    have ih' := ih (fun x hx => hl x (by simp [hx]))
    simp only [List.cons_append, splitChar, if_neg hc]
    rcases hsp : splitChar sep (cs ++ sep :: r) with _ | ⟨g, gs⟩
    · exact absurd hsp (splitChar_ne_nil sep _)
    · rw [hsp] at ih'
      simp at ih'
      simp [ih']

/-- Claim C1, counterexample: starting from a state holding one movie, a
thrown fetch sets the generic error message but leaves the movie list
nonempty — the catch block of App.jsx never calls `setMovieList`, so the
Result List is not the empty array as the claim states. -/
theorem c1_counterexample :
    (fetchMovies "inception" respondThrown exState).movieList ≠ [] ∧
    (fetchMovies "inception" respondThrown exState).errorMessage =
      "Error fetching movies. Please Try Again." := by decide

/-- Claim C1, amended: for every fetch whose response is non-2xx or whose
transport throws, `fetchMovies` ends with the generic fetch-failure error
message and the Result List unchanged from its prior value (it is not
cleared). -/
theorem c1_thm (query : String) (respond : String → FetchResult) (s : AppState)
    (h : respond (buildEndpoint query) = FetchResult.thrown ∨
         ∃ body, respond (buildEndpoint query) = FetchResult.resp false body) :
    (fetchMovies query respond s).errorMessage =
      "Error fetching movies. Please Try Again." ∧
    (fetchMovies query respond s).movieList = s.movieList := by
  unfold fetchMovies fetchMoviesStart
  rcases h with h | ⟨body, h⟩ <;> rw [h] <;> simp

/-- Claim C1, witness: the amended theorem applied to a thrown fetch from
the initial (empty-list) state. -/
theorem c1_witness :
    (fetchMovies "" respondThrown initState).errorMessage =
      "Error fetching movies. Please Try Again." ∧
    (fetchMovies "" respondThrown initState).movieList = initState.movieList :=
  c1_thm "" respondThrown initState (Or.inl rfl)

/-- Claim C2: a 2xx response whose body has `response = "False"` and
`Error = "boom"` makes `fetchMovies` set the error message to "boom" and the
movie list to the empty array, returning before the success path. -/
theorem c2_thm (query : String) (respond : String → FetchResult) (s : AppState)
    (body : ResponseBody)
    (h : respond (buildEndpoint query) = FetchResult.resp true body)
    (hflag : body.response = some "False") (herr : body.Error = some "boom") :
    (fetchMovies query respond s).errorMessage = "boom" ∧
    (fetchMovies query respond s).movieList = [] := by
  unfold fetchMovies fetchMoviesStart
  rw [h]
  simp [hflag, jsOrDefault, herr]

/-- Claim C2, witness: the theorem applied to the concrete responder that
returns the "boom" inline-failure body. -/
theorem c2_witness :
    (fetchMovies "" respondBoom initState).errorMessage = "boom" ∧
    (fetchMovies "" respondBoom initState).movieList = [] :=
  c2_thm "" respondBoom initState boomBody rfl rfl rfl

/-- Claim C3: the empty query builds the popularity-sorted discovery URL,
and every nonempty query builds the keyword-search URL with the query
percent-encoded (spaces become %20, as the "batman and robin" example
shows); `fetchMovies` consumes the response at exactly that endpoint. -/
theorem c3_thm :
    buildEndpoint "" =
      "https://api.themoviedb.org/3/discover/movie?sort_by=popularity.desc" ∧
    buildEndpoint "batman and robin" =
      "https://api.themoviedb.org/3/search/movie?query=batman%20and%20robin" ∧
    (∀ q : String, q ≠ "" → buildEndpoint q =
      "https://api.themoviedb.org/3/search/movie?query=" ++
        encodeURIComponent q) ∧
    ∀ (q : String) (r r' : String → FetchResult) (s : AppState),
      r (buildEndpoint q) = r' (buildEndpoint q) →
      fetchMovies q r s = fetchMovies q r' s := by
  refine ⟨by decide, by decide, ?_, ?_⟩
  · intro q hq
    simp [buildEndpoint, hq, API_BASE_URL]
  · intro q r r' s h
    unfold fetchMovies
    rw [h]

/-- Claim C3, witness: the universal conjuncts applied to the query
"batman and robin" and to two responders agreeing at its endpoint. -/
theorem c3_witness :
    buildEndpoint "batman and robin" =
      "https://api.themoviedb.org/3/search/movie?query=" ++
        encodeURIComponent "batman and robin" ∧
    encodeURIComponent "batman and robin" = "batman%20and%20robin" ∧
    fetchMovies "batman and robin" respondOk initState =
      fetchMovies "batman and robin" respondOkAtSearch initState :=
  ⟨c3_thm.2.2.1 "batman and robin" (by decide), by decide,
   c3_thm.2.2.2 "batman and robin" respondOk respondOkAtSearch initState
     (by decide)⟩

/-- Claim C4: a 2xx response without the inline failure flag makes
`fetchMovies` set the movie list to the body's `results` array (empty when
the field is missing) and leaves the error message empty. -/
theorem c4_thm (query : String) (respond : String → FetchResult) (s : AppState)
    (body : ResponseBody)
    (h : respond (buildEndpoint query) = FetchResult.resp true body)
    (hflag : body.response ≠ some "False") :
    (fetchMovies query respond s).movieList = body.results.getD [] ∧
    (fetchMovies query respond s).errorMessage = "" := by
  unfold fetchMovies fetchMoviesStart
  rw [h]
  simp [hflag]

/-- Claim C4, witness: the theorem applied to a concrete one-movie
successful body, with the resulting list evaluated. -/
theorem c4_witness :
    (fetchMovies "" respondOk initState).movieList = okBody.results.getD [] ∧
    (fetchMovies "" respondOk initState).errorMessage = "" ∧
    okBody.results.getD [] = [exMovie] :=
  ⟨(c4_thm "" respondOk initState okBody rfl (by decide)).1,
   (c4_thm "" respondOk initState okBody rfl (by decide)).2, rfl⟩

/-- Claim C5: `fetchMovies` opens by setting the loading flag (its first
two steps are `fetchMoviesStart`, whose result always has `isLoading =
true`), and for every query, responder and prior state the settled state
has `isLoading = false` — the finally block runs on every path. -/
theorem c5_thm (query : String) (respond : String → FetchResult) (s : AppState) :
    (fetchMoviesStart s).isLoading = true ∧
    (fetchMovies query respond s).isLoading = false := by
  refine ⟨rfl, ?_⟩
  unfold fetchMovies
  rcases respond (buildEndpoint query) with _ | ⟨ok, body⟩ <;> simp

/-- Claim C6, counterexample: a present rating of 0 is falsy in JS, so
`MovieCard` renders "N/A" for it rather than the one-decimal formatting
"0.0" — the claim's "N/A exactly when absent" fails at `vote_average = 0`. -/
theorem c6_counterexample :
    renderRating (some 0) = "N/A" ∧ renderRating (some 0) ≠ toFixed1 0 := by
  have h1 : renderRating (some 0) = "N/A" := by simp [renderRating]
  have h2 : toFixed1 0 = "0.0" := by simp [toFixed1]; rfl
  refine ⟨h1, ?_⟩
  rw [h1, h2]
  decide

/-- Claim C6, amended: the Result Card renders "N/A" when `vote_average`
is absent or zero (JS truthiness), and renders the rating formatted to one
decimal place for every present nonzero rating. -/
theorem c6_thm (va : Option ℚ) :
    (va = none ∨ va = some 0 → renderRating va = "N/A") ∧
    ∀ v : ℚ, va = some v → v ≠ 0 → renderRating va = toFixed1 v := by
  constructor
  · rintro (rfl | rfl) <;> simp [renderRating]
  · rintro v rfl hv
    simp [renderRating, Rat.num_eq_zero, hv]

/-- Claim C6, witness: the amended theorem applied to an absent rating and
to the spec's example rating 7.543, which formats to "7.5". -/
theorem c6_witness :
    renderRating none = "N/A" ∧
    renderRating (some exRating) = toFixed1 exRating ∧
    toFixed1 exRating = "7.5" :=
  ⟨(c6_thm none).1 (Or.inl rfl),
   (c6_thm (some exRating)).2 exRating rfl (by rw [← Rat.num_ne_zero]; decide),
   by decide⟩

/-- Claim C7: the Result Card renders "N/A" for an absent release date,
and for every release date opening with a four-digit year followed by '-'
it renders exactly that year (the segment before the first '-'). -/
theorem c7_thm (rd : Option String) :
    (rd = none → renderYear rd = "N/A") ∧
    ∀ (a b c d : Char) (r : List Char),
      rd = some (String.mk (a :: b :: c :: d :: '-' :: r)) →
      a.isDigit → b.isDigit → c.isDigit → d.isDigit →
      renderYear rd = String.mk [a, b, c, d] := by
  constructor
  · rintro rfl; rfl
  · rintro a b c d r rfl ha hb hc hd
    have hne : String.mk (a :: b :: c :: d :: '-' :: r) ≠ "" := by
      simp [String.ext_iff]
    have hchars : ∀ x ∈ [a, b, c, d], x ≠ '-' := by
      intro x hx
      simp only [List.mem_cons, List.not_mem_nil, or_false] at hx
      rcases hx with rfl | rfl | rfl | rfl
      · intro h; rw [h] at ha; exact absurd ha (by decide)
      · intro h; rw [h] at hb; exact absurd hb (by decide)
      · intro h; rw [h] at hc; exact absurd hc (by decide)
      · intro h; rw [h] at hd; exact absurd hd (by decide)
    have hsplit := splitChar_head_append '-' [a, b, c, d] r hchars
    simp only [renderYear, if_neg hne, jsSplit]
    rcases hsp : splitChar '-' (String.mk (a :: b :: c :: d :: '-' :: r)).data
      with _ | ⟨g, gs⟩
    · exact absurd hsp (splitChar_ne_nil '-' _)
    · have hdata : (String.mk (a :: b :: c :: d :: '-' :: r)).data =
          [a, b, c, d] ++ '-' :: r := rfl
      rw [hdata] at hsp
      rw [hsp] at hsplit
      simp at hsplit
      simp [hsp, hsplit]

/-- Claim C7, witness: the theorem applied to the spec's example date
"2024-05-15", which renders "2024", and to an absent date. -/
theorem c7_witness :
    renderYear (some "2024-05-15") = "2024" ∧ renderYear none = "N/A" :=
  ⟨((c7_thm (some "2024-05-15")).2 '2' '0' '2' '4' ['0', '5', '-', '1', '5']
      rfl (by decide) (by decide) (by decide) (by decide)).trans (by decide),
   (c7_thm none).1 rfl⟩

/-- Claim C8: for every nonempty burst of input changes in which each
change lands strictly within the quiet period after its predecessor, the
debouncer produces exactly one emission, one quiet period after the last
change and carrying the last value. -/
theorem c8_thm (changes : List Change) (last : Change)
    (hlast : changes.getLast? = some last)
    (hburst : changes.Chain' (fun c d => d.time < c.time + debounceDelay)) :
    debounceEmissions changes = [⟨last.time + debounceDelay, last.value⟩] := by
  induction changes with
  | nil => simp at hlast
  | cons c rest ih =>
    cases rest with
    | nil =>
      simp only [List.getLast?_singleton, Option.some.injEq] at hlast
      subst hlast
      rfl
    | cons d rest' =>
      rw [List.getLast?_cons_cons] at hlast
      rw [List.chain'_cons] at hburst
      rw [debounceEmissions, if_neg (by omega)]
      exact ih hlast hburst.2

/-- Claim C8, witness: the theorem applied to a three-keystroke burst with
100 ms gaps, which emits once at 700 ms carrying "bat". -/
theorem c8_witness :
    exBurst.getLast? = some ⟨200, "bat"⟩ ∧
    debounceEmissions exBurst = [⟨700, "bat"⟩] :=
  ⟨rfl, c8_thm exBurst ⟨200, "bat"⟩ rfl
    (by simp [exBurst, List.chain'_cons, debounceDelay])⟩

/-- Claim C9: `fetchMovies` never writes the raw or debounced search term —
for every query, responder and prior state both fields of the settled state
equal their prior values. -/
theorem c9_thm (query : String) (respond : String → FetchResult) (s : AppState) :
    (fetchMovies query respond s).searchTerm = s.searchTerm ∧
    (fetchMovies query respond s).debouncedSearchTerm = s.debouncedSearchTerm := by
  unfold fetchMovies fetchMoviesStart
  rcases respond (buildEndpoint query) with _ | ⟨ok, body⟩
  · simp
  · cases ok with
    | false => simp
    | true =>
      by_cases hflag : body.response = some "False" <;> simp [hflag]

/-- Claim C10: a 2xx body with `response = "False"` but a missing or empty
`Error` field makes `fetchMovies` fall back to the default message "Failed
to fetch movies" (the empty string is falsy under `||`) and clear the movie
list. -/
theorem c10_thm (query : String) (respond : String → FetchResult) (s : AppState)
    (body : ResponseBody)
    (h : respond (buildEndpoint query) = FetchResult.resp true body)
    (hflag : body.response = some "False")
    (herr : body.Error = none ∨ body.Error = some "") :
    (fetchMovies query respond s).errorMessage = "Failed to fetch movies" ∧
    (fetchMovies query respond s).movieList = [] := by
  unfold fetchMovies fetchMoviesStart
  rw [h]
  rcases herr with herr | herr <;> simp [hflag, jsOrDefault, herr]

/-- Claim C10, witness: the theorem applied to the concrete inline-failure
body whose `Error` is the empty string. -/
theorem c10_witness :
    (fetchMovies "" respondEmptyErr initState).errorMessage =
      "Failed to fetch movies" ∧
    (fetchMovies "" respondEmptyErr initState).movieList = [] :=
  c10_thm "" respondEmptyErr initState emptyErrBody rfl rfl (Or.inr rfl)
